import Mathlib

/-!
Shallow embedding of the SmartSpin2k real-time control subsystem
(`src/src/Main.cpp`): the actuator positioning loop (`SS2K::moveStepper`),
the maintenance supervisor tick (`SS2K::maintenanceLoop`), the shifter
interrupt handlers (`SS2K::shiftUp` / `SS2K::shiftDown` / `SS2K::deBounce`),
the thermal guard (`SS2K::checkDriverTemperature`), the BLE reconnect check
(`SS2K::checkBLEReconnect`) and the auxiliary serial framer
(`SS2K::checkSerial`).

Signed machine integers are modelled by `Int`; the `uint8_t` truncation in
the thermal guard and the `unsigned long` (32-bit) subtraction in the
debounce check are modelled explicitly with `% 256` and `% 2^32`.
The accessor types of `rtConfig`/`userConfig` and the configuration
constants (`THROTTLE_TEMP`, `HEADER`/`FOOTER`, `BLE_RECONNECT_INTERVAL`,
`debounceDelay`) are declared in headers outside this file set; their
kinds follow the design document's data model (signed integers, sentinel
byte values, thresholds), and the constants are kept as parameters so no
theorem depends on a guessed value.
External collaborators (motion planner, TMC driver, BLE client) are
modelled at their call boundary: the argument of `moveTo`, the argument of
`driver.irun`, and a boolean recording whether a scan was initiated.
-/

namespace SS2K

/-- Motor speed setting. The code only ever writes one of two configured
rates (`STEPPER_SPEED` once before the loop, `STEPPER_ERG_SPEED` in the ERG
branch), so the speed register is modelled as which of the two was last
written. -/
inductive Speed where
  | normal : Speed
  | erg : Speed
deriving DecidableEq, Repr

/-- Shared state read by one iteration of the `SS2K::moveStepper` loop body:
`rtConfig` fields (shifter position, step bounds, ERG flag, target incline),
`userConfig` fields (shift step, incline multiplier) and the
`ss2k.externalControl` flag. These are written by other tasks, so they are
inputs to each iteration. -/
structure IterInput where
  shifterPosition : Int
  minStep : Int
  maxStep : Int
  ergMode : Bool
  targetIncline : Int
  shiftStep : Int
  inclineMultiplier : Int
  externalControl : Bool
deriving DecidableEq, Repr

/-- State owned by the positioning loop that persists across iterations:
`ss2k.targetPosition` and the motion planner's speed register. -/
structure StepperState where
  targetPosition : Int
  speed : Speed
deriving DecidableEq, Repr

/-- One iteration of the `while (1)` body of `SS2K::moveStepper`
(Main.cpp lines 272-321), restricted to the state the claims mention.
Returns the new persistent state and the argument passed to
`stepper->moveTo` (lines 295-301): if `!externalControl`, the ERG branch
sets the ERG speed and `targetPosition = targetIncline`, the simulation
branch sets `targetPosition = shifterPosition * shiftStep +
targetIncline * inclineMultiplier`; the command is then clamped against
`minStep`/`maxStep` exactly as the source's if/else-if/else chain does. -/
def moveStepperIter (inp : IterInput) (st : StepperState) : StepperState × Int :=
  let st1 :=
    if !inp.externalControl then
      if inp.ergMode then
        { st with speed := Speed.erg, targetPosition := inp.targetIncline }
      else
        { st with targetPosition :=
            inp.shifterPosition * inp.shiftStep + inp.targetIncline * inp.inclineMultiplier }
    else st
  let cmd :=
    if inp.minStep ≤ st1.targetPosition ∧ st1.targetPosition ≤ inp.maxStep then
      st1.targetPosition
    else if st1.targetPosition ≤ inp.minStep then
      inp.minStep
    else
      inp.maxStep
  (st1, cmd)

/-- Several consecutive iterations of the positioning loop, each with its
own snapshot of the shared inputs. -/
def moveStepperRun : List IterInput → StepperState → StepperState
  | [], st => st
  | i :: rest, st => moveStepperRun rest (moveStepperIter i st).1

/-- C1: for every state with `minStep ≤ maxStep`, the argument of `moveTo`
issued by one iteration of the positioning loop lies in
`[minStep, maxStep]`; it equals the (post-computation) `targetPosition`
when that is in range, and the nearest bound otherwise. -/
theorem moveStepper_clamp (inp : IterInput) (st : StepperState)
    (h : inp.minStep ≤ inp.maxStep) :
    inp.minStep ≤ (moveStepperIter inp st).2 ∧
    (moveStepperIter inp st).2 ≤ inp.maxStep ∧
    (inp.minStep ≤ (moveStepperIter inp st).1.targetPosition ∧
        (moveStepperIter inp st).1.targetPosition ≤ inp.maxStep →
      (moveStepperIter inp st).2 = (moveStepperIter inp st).1.targetPosition) ∧
    ((moveStepperIter inp st).1.targetPosition < inp.minStep →
      (moveStepperIter inp st).2 = inp.minStep) ∧
    (inp.maxStep < (moveStepperIter inp st).1.targetPosition →
      (moveStepperIter inp st).2 = inp.maxStep) := by
  unfold moveStepperIter
  dsimp only
  split_ifs <;>
    refine ⟨by omega, by omega, fun hr => by omega, fun hr => by omega, fun hr => by omega⟩

/-- Concrete witness input for the positioning-loop theorems. -/
def inpW : IterInput :=
  { shifterPosition := 50, minStep := -100, maxStep := 100, ergMode := false,
    targetIncline := 0, shiftStep := 2, inclineMultiplier := 1, externalControl := false }

/-- Concrete witness state for the positioning-loop theorems. -/
def stW : StepperState := { targetPosition := 0, speed := Speed.normal }

/-- Witness for C1 at the spec's own scenario (`minStep = -100`,
`maxStep = 100`, `shifterPosition = 50`, `shiftStep = 2`,
`targetIncline = 0`). -/
theorem moveStepper_clamp_witness :
    inpW.minStep ≤ (moveStepperIter inpW stW).2 ∧
    (moveStepperIter inpW stW).2 ≤ inpW.maxStep ∧
    (inpW.minStep ≤ (moveStepperIter inpW stW).1.targetPosition ∧
        (moveStepperIter inpW stW).1.targetPosition ≤ inpW.maxStep →
      (moveStepperIter inpW stW).2 = (moveStepperIter inpW stW).1.targetPosition) ∧
    ((moveStepperIter inpW stW).1.targetPosition < inpW.minStep →
      (moveStepperIter inpW stW).2 = inpW.minStep) ∧
    (inpW.maxStep < (moveStepperIter inpW stW).1.targetPosition →
      (moveStepperIter inpW stW).2 = inpW.maxStep) :=
  moveStepper_clamp inpW stW (by decide)

/-- C5: with `externalControl = false` and ERG mode disabled (simulation
mode), one iteration sets `targetPosition` to exactly
`shifterPosition * shiftStep + targetIncline * inclineMultiplier`. -/
theorem moveStepper_sim_formula (inp : IterInput) (st : StepperState)
    (hext : inp.externalControl = false) (herg : inp.ergMode = false) :
    (moveStepperIter inp st).1.targetPosition =
      inp.shifterPosition * inp.shiftStep + inp.targetIncline * inp.inclineMultiplier := by
  simp [moveStepperIter, hext, herg]

/-- Witness for C5: at the spec scenario the simulation-mode target is
`50 * 2 + 0 * 1 = 100`. -/
theorem moveStepper_sim_formula_witness :
    (moveStepperIter inpW stW).1.targetPosition =
      inpW.shifterPosition * inpW.shiftStep + inpW.targetIncline * inpW.inclineMultiplier :=
  moveStepper_sim_formula inpW stW (by decide) (by decide)

/-- C9: two iterations that agree on `targetIncline`, both with
`externalControl = false` and ERG mode enabled, compute the same
`targetPosition` regardless of `shifterPosition` (and of every other
differing field), namely `targetIncline` itself. -/
theorem moveStepper_erg_noninterference (inp1 inp2 : IterInput)
    (st1 st2 : StepperState)
    (h1e : inp1.externalControl = false) (h2e : inp2.externalControl = false)
    (h1g : inp1.ergMode = true) (h2g : inp2.ergMode = true)
    (hinc : inp1.targetIncline = inp2.targetIncline) :
    (moveStepperIter inp1 st1).1.targetPosition =
      (moveStepperIter inp2 st2).1.targetPosition ∧
    (moveStepperIter inp1 st1).1.targetPosition = inp1.targetIncline := by
  simp [moveStepperIter, h1e, h2e, h1g, h2g, hinc]

/-- ERG-mode witness input, differing from `inpW2erg` only in
`shifterPosition`. -/
def inpW1erg : IterInput :=
  { shifterPosition := 7, minStep := -100, maxStep := 100, ergMode := true,
    targetIncline := 42, shiftStep := 2, inclineMultiplier := 1, externalControl := false }

/-- ERG-mode witness input, differing from `inpW1erg` only in
`shifterPosition`. -/
def inpW2erg : IterInput :=
  { shifterPosition := -3, minStep := -100, maxStep := 100, ergMode := true,
    targetIncline := 42, shiftStep := 2, inclineMultiplier := 1, externalControl := false }

/-- Witness for C9: two ERG-mode states with equal incline but different
shifter positions yield the same target. -/
theorem moveStepper_erg_noninterference_witness :
    (moveStepperIter inpW1erg stW).1.targetPosition =
      (moveStepperIter inpW2erg stW).1.targetPosition ∧
    (moveStepperIter inpW1erg stW).1.targetPosition = inpW1erg.targetIncline :=
  moveStepper_erg_noninterference inpW1erg inpW2erg stW stW
    (by decide) (by decide) (by decide) (by decide) (by decide)

/-- Once the speed register holds the ERG rate, a single further iteration
never changes it back: the loop body's only speed write is
`setSpeedInHz(STEPPER_ERG_SPEED)` in the ERG branch. -/
theorem speed_erg_preserved (inp : IterInput) (st : StepperState)
    (h : st.speed = Speed.erg) : (moveStepperIter inp st).1.speed = Speed.erg := by
  unfold moveStepperIter
  dsimp only
  split_ifs <;> simp [h]

/-- C10: after any iteration that runs with ERG mode enabled (and
`externalControl` off), the speed setting is the ERG rate and remains the
ERG rate across every subsequent sequence of iterations, whatever their
modes: no later iteration restores the normal rate. -/
theorem moveStepper_erg_speed_latched (inp : IterInput) (st : StepperState)
    (hext : inp.externalControl = false) (herg : inp.ergMode = true)
    (inputs : List IterInput) :
    (moveStepperRun inputs (moveStepperIter inp st).1).speed = Speed.erg := by
  have h1 : (moveStepperIter inp st).1.speed = Speed.erg := by
    simp [moveStepperIter, hext, herg]
  clear hext herg
  generalize (moveStepperIter inp st).1 = st1 at h1
  induction inputs generalizing st1 with
  | nil => simp [moveStepperRun, h1]
  | cons i rest ih =>
    rw [moveStepperRun]
    exact ih _ (speed_erg_preserved i st1 h1)

/-- Witness for C10: after an ERG iteration, a subsequent simulation-mode
iteration still leaves the speed at the ERG rate. -/
theorem moveStepper_erg_speed_latched_witness :
    (moveStepperRun [inpW] (moveStepperIter inpW1erg stW).1).speed = Speed.erg :=
  moveStepper_erg_speed_latched inpW1erg stW (by decide) (by decide) [inpW]

/-- State read and written by one tick of the `SS2K::maintenanceLoop`
shifter-reconciliation block (Main.cpp lines 190-205):
`rtConfig.getShifterPosition()`, `ss2k.lastShifterPosition`, the shared
`ss2k.targetPosition` as last written by the positioning loop, and the
step bounds. `shiftStep`, `targetIncline` and `inclineMultiplier` are
carried along so that the target the new shifter position *would* produce
in simulation mode can be stated; the tick itself never reads them. -/
structure MaintState where
  shifterPosition : Int
  lastShifterPosition : Int
  targetPosition : Int
  minStep : Int
  maxStep : Int
  shiftStep : Int
  targetIncline : Int
  inclineMultiplier : Int
deriving DecidableEq, Repr

/-- The shifter-reconciliation block of one maintenance tick. On an
observed increase the shift is rejected (shifter forced back to the
snapshot) when the current `targetPosition` exceeds `maxStep`; symmetric
on a decrease against `minStep`; `notifyShift` (the returned boolean) is
called on any observed change; the snapshot is then updated to the
possibly corrected shifter position. -/
def maintenanceTick (s : MaintState) : MaintState × Bool :=
  if s.lastShifterPosition < s.shifterPosition then
    let s1 :=
      if s.maxStep < s.targetPosition then
        { s with shifterPosition := s.lastShifterPosition }
      else s
    ({ s1 with lastShifterPosition := s1.shifterPosition }, true)
  else if s.shifterPosition < s.lastShifterPosition then
    let s1 :=
      if s.targetPosition < s.minStep then
        { s with shifterPosition := s.lastShifterPosition }
      else s
    ({ s1 with lastShifterPosition := s1.shifterPosition }, true)
  else
    ({ s with lastShifterPosition := s.shifterPosition }, false)

/-- The target position that the current shifter position would produce in
simulation mode (the formula of Main.cpp lines 283-284). -/
def wouldBeTarget (s : MaintState) : Int :=
  s.shifterPosition * s.shiftStep + s.targetIncline * s.inclineMultiplier

/-- Maintenance-tick state in which the shifter has just been incremented
but the shared `targetPosition` still holds the value the positioning loop
computed from the old shifter position. -/
def maintC : MaintState :=
  { shifterPosition := 2, lastShifterPosition := 1, targetPosition := 50,
    minStep := -60, maxStep := 60, shiftStep := 100, targetIncline := 0,
    inclineMultiplier := 1 }

/-- C6 counterexample: in `maintC` the shifter has increased and the target
that would result from the new shifter position (`2 * 100 + 0 = 200`)
exceeds `maxStep = 60`, yet the tick does not force the shifter back to
the snapshot: the tick compares the stale stored `targetPosition = 50`,
not a target recomputed from the new shifter position. -/
theorem maintenanceTick_wouldbe_cex :
    maintC.lastShifterPosition < maintC.shifterPosition ∧
    maintC.maxStep < wouldBeTarget maintC ∧
    (maintenanceTick maintC).1.shifterPosition = 2 ∧
    maintC.lastShifterPosition ≠ 2 := by decide

/-- C6 amended: the tick rejects an observed shifter increase exactly when
the *currently stored* `targetPosition` (the value last written by the
positioning loop, possibly stale) exceeds `maxStep`, and symmetrically
rejects a decrease when it is below `minStep`; peers are notified on every
observed change (and only then); the snapshot is always updated to the
possibly corrected shifter position. -/
theorem maintenanceTick_spec (s : MaintState) :
    (s.lastShifterPosition < s.shifterPosition →
      (s.maxStep < s.targetPosition →
        (maintenanceTick s).1.shifterPosition = s.lastShifterPosition) ∧
      (s.targetPosition ≤ s.maxStep →
        (maintenanceTick s).1.shifterPosition = s.shifterPosition) ∧
      (maintenanceTick s).2 = true) ∧
    (s.shifterPosition < s.lastShifterPosition →
      (s.targetPosition < s.minStep →
        (maintenanceTick s).1.shifterPosition = s.lastShifterPosition) ∧
      (s.minStep ≤ s.targetPosition →
        (maintenanceTick s).1.shifterPosition = s.shifterPosition) ∧
      (maintenanceTick s).2 = true) ∧
    (s.shifterPosition = s.lastShifterPosition →
      (maintenanceTick s).1 = s ∧ (maintenanceTick s).2 = false) ∧
    (maintenanceTick s).1.lastShifterPosition =
      (maintenanceTick s).1.shifterPosition := by
  obtain ⟨sp, lsp, tp, mn, mx, ss, ti, im⟩ := s
  simp only [maintenanceTick]
  split_ifs with h1 h2 h3 h4
  · exact ⟨fun hup => ⟨fun ht => rfl, fun ht => absurd ht (by omega), rfl⟩,
      fun hdn => absurd hdn (by omega), fun heq => absurd heq (by omega), rfl⟩
  · exact ⟨fun hup => ⟨fun ht => absurd ht h2, fun ht => rfl, rfl⟩,
      fun hdn => absurd hdn (by omega), fun heq => absurd heq (by omega), rfl⟩
  · exact ⟨fun hup => absurd hup h1,
      fun hdn => ⟨fun ht => rfl, fun ht => absurd ht (by omega), rfl⟩,
      fun heq => absurd heq (by omega), rfl⟩
  · exact ⟨fun hup => absurd hup h1,
      fun hdn => ⟨fun ht => absurd ht h4, fun ht => rfl, rfl⟩,
      fun heq => absurd heq (by omega), rfl⟩
  · exact ⟨fun hup => absurd hup h1, fun hdn => absurd hdn h3,
      fun heq => ⟨by rw [heq], rfl⟩, rfl⟩

/-- Witness for C6 amended: the increase in `maintC` is accepted (stored
target 50 is within bounds), peers are notified, and the snapshot follows
the shifter position. -/
theorem maintenanceTick_spec_witness :
    (maintC.lastShifterPosition < maintC.shifterPosition →
      (maintC.maxStep < maintC.targetPosition →
        (maintenanceTick maintC).1.shifterPosition = maintC.lastShifterPosition) ∧
      (maintC.targetPosition ≤ maintC.maxStep →
        (maintenanceTick maintC).1.shifterPosition = maintC.shifterPosition) ∧
      (maintenanceTick maintC).2 = true) ∧
    (maintC.shifterPosition < maintC.lastShifterPosition →
      (maintC.targetPosition < maintC.minStep →
        (maintenanceTick maintC).1.shifterPosition = maintC.lastShifterPosition) ∧
      (maintC.minStep ≤ maintC.targetPosition →
        (maintenanceTick maintC).1.shifterPosition = maintC.shifterPosition) ∧
      (maintenanceTick maintC).2 = true) ∧
    (maintC.shifterPosition = maintC.lastShifterPosition →
      (maintenanceTick maintC).1 = maintC ∧ (maintenanceTick maintC).2 = false) ∧
    (maintenanceTick maintC).1.lastShifterPosition =
      (maintenanceTick maintC).1.shifterPosition :=
  maintenanceTick_spec maintC

/-- State touched by the shifter interrupt handlers:
`rtConfig`'s shifter position and `ss2k.lastDebounceTime`. -/
structure ShiftState where
  shifterPosition : Int
  lastDebounceTime : Nat
deriving DecidableEq, Repr

/-- Inputs sampled by one invocation of a shifter interrupt handler: the
current `millis()` value, the `debounceDelay` constant, the ERG flag, the
re-read physical pin level (`pinLow` is `digitalRead(pin) == LOW`, i.e. the
button really is pressed) and the configured shifter-direction flag. -/
structure ShiftInput where
  now : Nat
  debounceDelay : Nat
  ergMode : Bool
  pinLow : Bool
  shifterDir : Bool
deriving DecidableEq, Repr

/-- Unsigned 32-bit subtraction `a - b`, as C computes
`millis() - lastDebounceTime` on `unsigned long` values. -/
def sub32 (a b : Nat) : Nat := (a + 2 ^ 32 - b) % 2 ^ 32

/-- `SS2K::deBounce` (Main.cpp lines 324-332): if the debounce window has
elapsed, record the current time in `lastDebounceTime` and report `true`;
otherwise report `false` with the state unchanged. -/
def deBounce (now delay : Nat) (st : ShiftState) : Bool × ShiftState :=
  if delay < sub32 now st.lastDebounceTime then
    (true, { st with lastDebounceTime := now })
  else
    (false, st)

/-- `SS2K::shiftUp` (Main.cpp lines 335-343). Note the evaluation order of
the C condition `ss2k.deBounce() && !rtConfig.getERGMode()`: `deBounce` is
always called first and its write to `lastDebounceTime` happens even when
the ERG check then short-circuits the body away. -/
def shiftUp (inp : ShiftInput) (st : ShiftState) : ShiftState :=
  let r := deBounce inp.now inp.debounceDelay st
  if r.1 && !inp.ergMode then
    if inp.pinLow then
      { r.2 with shifterPosition :=
          r.2.shifterPosition - 1 + (if inp.shifterDir then 1 else 0) * 2 }
    else
      { r.2 with lastDebounceTime := 0 }
  else r.2

/-- `SS2K::shiftDown` (Main.cpp lines 345-353), the mirror image of
`shiftUp`. -/
def shiftDown (inp : ShiftInput) (st : ShiftState) : ShiftState :=
  let r := deBounce inp.now inp.debounceDelay st
  if r.1 && !inp.ergMode then
    if inp.pinLow then
      { r.2 with shifterPosition :=
          r.2.shifterPosition + 1 - (if inp.shifterDir then 1 else 0) * 2 }
    else
      { r.2 with lastDebounceTime := 0 }
  else r.2

/-- Interrupt-handler input with ERG mode active and the debounce window
elapsed. -/
def shiftInpC : ShiftInput :=
  { now := 1000, debounceDelay := 500, ergMode := true, pinLow := true,
    shifterDir := false }

/-- C4 counterexample: with ERG mode active and the debounce window
elapsed, an invocation of the shift-up handler is not a complete no-op:
`deBounce` runs before the ERG check and overwrites `lastDebounceTime`
(here from 0 to 1000), even though `shifterPosition` is untouched. -/
theorem shiftUp_erg_writes_debounce_cex :
    shiftInpC.ergMode = true ∧
    (shiftUp shiftInpC { shifterPosition := 0, lastDebounceTime := 0 }).lastDebounceTime
      = 1000 ∧
    (1000 : Nat) ≠ 0 := by decide

/-- C4 amended: while ERG mode is active, the shift-up and shift-down
handlers never change `shifterPosition`, but `lastDebounceTime` is still
written by the leading debounce check: it becomes the current time when the
debounce window has elapsed and is unchanged otherwise. -/
theorem shift_erg_no_shift (inp : ShiftInput) (st : ShiftState)
    (h : inp.ergMode = true) :
    (shiftUp inp st).shifterPosition = st.shifterPosition ∧
    (shiftDown inp st).shifterPosition = st.shifterPosition ∧
    (shiftUp inp st).lastDebounceTime =
      (if inp.debounceDelay < sub32 inp.now st.lastDebounceTime then inp.now
       else st.lastDebounceTime) ∧
    (shiftDown inp st).lastDebounceTime =
      (if inp.debounceDelay < sub32 inp.now st.lastDebounceTime then inp.now
       else st.lastDebounceTime) := by
  simp only [shiftUp, shiftDown, deBounce, h]
  split_ifs <;> simp_all

/-- Witness for C4 amended at the counterexample input: the shifter
position is unchanged and `lastDebounceTime` becomes `now = 1000`. -/
theorem shift_erg_no_shift_witness :
    (shiftUp shiftInpC { shifterPosition := 0, lastDebounceTime := 0 }).shifterPosition
      = ({ shifterPosition := 0, lastDebounceTime := 0 } : ShiftState).shifterPosition ∧
    (shiftDown shiftInpC { shifterPosition := 0, lastDebounceTime := 0 }).shifterPosition
      = ({ shifterPosition := 0, lastDebounceTime := 0 } : ShiftState).shifterPosition ∧
    (shiftUp shiftInpC { shifterPosition := 0, lastDebounceTime := 0 }).lastDebounceTime
      = (if shiftInpC.debounceDelay <
            sub32 shiftInpC.now
              ({ shifterPosition := 0, lastDebounceTime := 0 } : ShiftState).lastDebounceTime
         then shiftInpC.now
         else ({ shifterPosition := 0, lastDebounceTime := 0 } : ShiftState).lastDebounceTime) ∧
    (shiftDown shiftInpC { shifterPosition := 0, lastDebounceTime := 0 }).lastDebounceTime
      = (if shiftInpC.debounceDelay <
            sub32 shiftInpC.now
              ({ shifterPosition := 0, lastDebounceTime := 0 } : ShiftState).lastDebounceTime
         then shiftInpC.now
         else ({ shifterPosition := 0, lastDebounceTime := 0 } : ShiftState).lastDebounceTime) :=
  shift_erg_no_shift shiftInpC { shifterPosition := 0, lastDebounceTime := 0 } (by decide)

/-- Truncation of a signed integer expression to a C `uint8_t`. -/
def uint8 (x : Int) : Int := x % 256

/-- State of the thermal guard: the `static bool overTemp` flag, and the
value last written to the driver's run-current register (`driver.irun`,
a `uint8_t`). -/
structure TempState where
  overTemp : Bool
  irun : Int
deriving DecidableEq, Repr

/-- `SS2K::checkDriverTemperature` (Main.cpp lines 434-448), with
`throttleTemp` the `THROTTLE_TEMP` constant (72 C per the source comment),
`pwrScaler` the board's `uint8_t` `pwrScaler` field, and `temp` the
truncated `temperatureRead()` value of this invocation. Above the
threshold the computed value `(THROTTLE_TEMP - temp) + pwrScaler` is
stored into a `uint8_t` local before being applied, hence the `uint8`
truncation; strictly below the threshold the nominal current is restored
only when the flag was set; at exactly the threshold neither branch runs. -/
def checkDriverTemperature (throttleTemp pwrScaler temp : Int)
    (s : TempState) : TempState :=
  if throttleTemp < temp then
    { overTemp := true, irun := uint8 (throttleTemp - temp + pwrScaler) }
  else if temp < throttleTemp then
    { overTemp := false, irun := if s.overTemp then uint8 pwrScaler else s.irun }
  else
    s

/-- C7 counterexample (threshold 72, board `pwrScaler` 25): at 98 C the
exact value `(72 - 98) + 25 = -1` wraps in the `uint8_t` local to 255, so
the applied limit is 255, not the claimed exact integer; and between 97 C
and 98 C the applied limit jumps from 0 up to 255, so it is not strictly
decreasing in temperature. -/
theorem checkDriverTemperature_wrap_cex :
    (checkDriverTemperature 72 25 98 { overTemp := false, irun := 25 }).irun = 255 ∧
    ((72 : Int) - 98) + 25 = -1 ∧
    (255 : Int) ≠ -1 ∧
    (checkDriverTemperature 72 25 97 { overTemp := false, irun := 25 }).irun = 0 ∧
    (97 : Int) < 98 ∧ (0 : Int) < 255 := by decide

/-- C7 amended: for every temperature strictly above the threshold the
guard applies `((threshold - temp) + pwrScaler) mod 256` (the `uint8_t`
truncation of the claimed expression) and sets the over-temperature flag;
as long as the temperature stays at most `threshold + pwrScaler` (so the
expression has not wrapped), the applied limit equals the exact value and
is strictly decreasing as temperature increases. -/
theorem checkDriverTemperature_throttle (tt ps t0 t1 t2 : Int)
    (s0 s1 s2 : TempState)
    (hps0 : 0 ≤ ps) (hps1 : ps < 256)
    (h0 : tt < t0) (h1 : tt < t1) (h12 : t1 < t2) (h2 : t2 ≤ tt + ps) :
    (checkDriverTemperature tt ps t0 s0).irun = uint8 (tt - t0 + ps) ∧
    (checkDriverTemperature tt ps t0 s0).overTemp = true ∧
    (checkDriverTemperature tt ps t1 s1).irun = tt - t1 + ps ∧
    (checkDriverTemperature tt ps t2 s2).irun = tt - t2 + ps ∧
    (checkDriverTemperature tt ps t2 s2).irun <
      (checkDriverTemperature tt ps t1 s1).irun := by
  have e1 : uint8 (tt - t1 + ps) = tt - t1 + ps := by
    unfold uint8; omega
  have e2 : uint8 (tt - t2 + ps) = tt - t2 + ps := by
    unfold uint8; omega
  refine ⟨by simp [checkDriverTemperature, h0], by simp [checkDriverTemperature, h0],
    by simp [checkDriverTemperature, h1, e1],
    by simp [checkDriverTemperature, lt_trans h1 h12, e2], ?_⟩
  simp [checkDriverTemperature, h1, lt_trans h1 h12, e1, e2]
  omega

/-- Witness for C7 amended: threshold 72, `pwrScaler` 25, temperatures 73
and 74 (inside the no-wrap range). -/
theorem checkDriverTemperature_throttle_witness :
    (checkDriverTemperature 72 25 73 { overTemp := false, irun := 25 }).irun
      = uint8 (72 - 73 + 25) ∧
    (checkDriverTemperature 72 25 73 { overTemp := false, irun := 25 }).overTemp = true ∧
    (checkDriverTemperature 72 25 73 { overTemp := false, irun := 25 }).irun
      = 72 - 73 + 25 ∧
    (checkDriverTemperature 72 25 74 { overTemp := true, irun := 24 }).irun
      = 72 - 74 + 25 ∧
    (checkDriverTemperature 72 25 74 { overTemp := true, irun := 24 }).irun <
      (checkDriverTemperature 72 25 73 { overTemp := false, irun := 25 }).irun :=
  checkDriverTemperature_throttle 72 25 73 73 74
    { overTemp := false, irun := 25 } { overTemp := false, irun := 25 }
    { overTemp := true, irun := 24 }
    (by decide) (by decide) (by decide) (by decide) (by decide) (by decide)

/-- C8 counterexample: with the over-temperature flag set and the
temperature exactly equal to the threshold (72 C), the guard changes
nothing: `temp > THROTTLE_TEMP` and `temp < THROTTLE_TEMP` are both false,
so the current limit is not restored (it stays 10, not `pwrScaler = 25`)
and the flag stays set. -/
theorem checkDriverTemperature_at_threshold_cex :
    (checkDriverTemperature 72 25 72 { overTemp := true, irun := 10 }).overTemp = true ∧
    (checkDriverTemperature 72 25 72 { overTemp := true, irun := 10 }).irun = 10 ∧
    (10 : Int) ≠ uint8 25 := by decide

/-- C8 amended: the nominal board current is restored and the flag cleared
only when the temperature is *strictly* under the threshold while the flag
is set; at a temperature exactly equal to the threshold the invocation
leaves the state untouched. -/
theorem checkDriverTemperature_restore (tt ps temp : Int) (s s' : TempState)
    (hlt : temp < tt) (hflag : s.overTemp = true) :
    (checkDriverTemperature tt ps temp s).irun = uint8 ps ∧
    (checkDriverTemperature tt ps temp s).overTemp = false ∧
    checkDriverTemperature tt ps tt s' = s' := by
  have hngt : ¬tt < temp := by omega
  simp [checkDriverTemperature, hngt, hlt, hflag]

/-- Witness for C8 amended: at 60 C with the flag set the current limit is
restored to `uint8 25 = 25` and the flag cleared. -/
theorem checkDriverTemperature_restore_witness :
    (checkDriverTemperature 72 25 60 { overTemp := true, irun := 10 }).irun = uint8 25 ∧
    (checkDriverTemperature 72 25 60 { overTemp := true, irun := 10 }).overTemp = false ∧
    checkDriverTemperature 72 25 72 { overTemp := true, irun := 10 }
      = { overTemp := true, irun := 10 } :=
  checkDriverTemperature_restore 72 25 60 { overTemp := true, irun := 10 }
    { overTemp := true, irun := 10 } (by decide) (by decide)

/-- Frame extraction of `SS2K::checkSerial` (Main.cpp lines 467-483) on
one read buffer, with the sentinel byte values as parameters (`HEADER` and
`FOOTER` are configuration constants of the auxiliary wire protocol). The
outer loop finds the first header byte at index `i`; the inner loop scans
from `i` for a footer byte and stops one past it, or at the end of the
buffer if none is found; the bytes `data[i..k)` are then handed to
`collectAndSet` and the outer loop breaks, so at most one frame is
processed per read. Returns the handed-over frame, or `none` when no
header byte occurs. -/
def extractFrame (header footer : Nat) (data : List Nat) : Option (List Nat) :=
  match data.findIdx? (· == header) with
  | none => none
  | some i =>
    let rest := data.drop i
    match rest.findIdx? (· == footer) with
    | none => some rest
    | some j => some (rest.take (j + 1))

/-- One invocation of the frame-extraction half of `SS2K::checkSerial`:
the read and scan only happen when at least 8 bytes are available
(Main.cpp line 460); `data` is the byte sequence read into
`auxSerialBuffer`. -/
def checkSerialFrame (header footer : Nat) (data : List Nat) : Option (List Nat) :=
  if 8 ≤ data.length then extractFrame header footer data else none

/-- C2 counterexample (sentinels 241 and 246): an 8-byte read that
contains the header byte 241 but no footer byte 246 still produces an
extracted frame — the whole tail of the buffer from the header on — and
hands it to the sensor-data intake, instead of extracting nothing. -/
theorem checkSerialFrame_no_footer_cex :
    (241 : Nat) ∈ [241, 1, 2, 3, 4, 5, 6, 7] ∧
    (246 : Nat) ∉ [241, 1, 2, 3, 4, 5, 6, 7] ∧
    checkSerialFrame 241 246 [241, 1, 2, 3, 4, 5, 6, 7]
      = some [241, 1, 2, 3, 4, 5, 6, 7] := by decide

/-- C2 amended: when a read of at least 8 bytes contains a header byte
(first occurrence at index `i`) but no footer byte at or after it, the
invocation does extract a frame, namely the entire suffix of the buffer
from the header to the end, and hands it to the sensor-data intake. -/
theorem checkSerialFrame_no_footer (header footer : Nat) (data : List Nat)
    (i : Nat) (hlen : 8 ≤ data.length)
    (hi : data.findIdx? (· == header) = some i)
    (hf : (data.drop i).findIdx? (· == footer) = none) :
    checkSerialFrame header footer data = some (data.drop i) := by
  simp [checkSerialFrame, extractFrame, hlen, hi, hf]

/-- Witness for C2 amended at the counterexample buffer. -/
theorem checkSerialFrame_no_footer_witness :
    checkSerialFrame 241 246 [241, 1, 2, 3, 4, 5, 6, 7]
      = some (List.drop 0 [241, 1, 2, 3, 4, 5, 6, 7]) :=
  checkSerialFrame_no_footer 241 246 [241, 1, 2, 3, 4, 5, 6, 7] 0
    (by decide) (by decide) (by decide)

/-- State of `SS2K::checkBLEReconnect`: the configured peer names, the
per-role connection flags of the BLE client, and the `static int bleCheck`
cooldown counter. -/
structure BLEState where
  hrName : String
  pmName : String
  connectedHR : Bool
  connectedPM : Bool
  bleCheck : Int
deriving DecidableEq, Repr

/-- `SS2K::checkBLEReconnect` (Main.cpp lines 503-513) with `interval` the
`BLE_RECONNECT_INTERVAL` constant. The C condition, with `&&` binding
tighter than `||`, is
`A || (B && C && D)` for `A` = heart monitor configured (not "any") and
disconnected, `B` = power meter configured (not "any") and disconnected,
`C` = neither name is "none", `D` = cooldown reached — so `A` alone
triggers a scan with no cooldown or "none" guard. On a scan the counter
is set to 0 and then the trailing `bleCheck++` leaves it at 1; otherwise
it is just incremented. Returns the new state and whether
`resetDevices`/`serverScan` were called. -/
def checkBLEReconnect (interval : Int) (s : BLEState) : BLEState × Bool :=
  if (s.hrName ≠ "any" ∧ s.connectedHR = false) ∨
      ((s.pmName ≠ "any" ∧ s.connectedPM = false) ∧
        (s.pmName ≠ "none" ∧ s.hrName ≠ "none") ∧ interval ≤ s.bleCheck) then
    ({ s with bleCheck := 0 + 1 }, true)
  else
    ({ s with bleCheck := s.bleCheck + 1 }, false)

/-- C3: at the failing input — a heart-rate monitor configured (name not
"any") and disconnected, cooldown counter 0, threshold 10 — the code
initiates a scan even though the cooldown has not reached its threshold,
because operator precedence attaches the cooldown guard (and the "none"
guards) only to the power-meter disjunct. -/
theorem checkBLEReconnect_scans_before_cooldown :
    (checkBLEReconnect 10
      { hrName := "hr1", pmName := "any", connectedHR := false,
        connectedPM := true, bleCheck := 0 }).2 = true ∧
    (0 : Int) < 10 := by decide

end SS2K
